import Mathlib

/-!
# Shallow embedding of the `legipy` LegiScan API client (`src/legiscan.py`)

The client is a thin binding: each method validates its arguments, builds a
query URL from a fixed template, performs one HTTP GET, decodes the JSON
response, raises on transport or API-reported errors, and unwraps one payload
key.  We embed the pure request-construction and response-unwrapping logic
directly; the HTTP transport is modelled as an explicit function
`http : String → HttpResponse` mapping the requested URL to the response the
server would return, so that "no request is issued" is expressible as
independence of the result from `http`.

Python values that flow into URL parameters (`str`, `int`, `None`) are
modelled by `PyVal`; decoded JSON payloads by `Json`; Python exceptions
(`LegiScanError`, `ValueError`, `KeyError`, `TypeError`) by `PyError`.
-/

set_option autoImplicit false

namespace Legipy

/-- A Python value usable as a URL parameter or keyword argument:
a string, an integer, or `None`.  (`str(v)` is `PyVal.pyStr`.) -/
inductive PyVal where
  | str : String → PyVal
  | int : Int → PyVal
  | none : PyVal
  deriving DecidableEq, Repr

/-- Python's `str()` on the values we model: strings unchanged, integers
printed, `None` printed as the literal string `"None"`. -/
def PyVal.pyStr : PyVal → String
  | .str s => s
  | .int n => toString n
  | .none => "None"

/-- A decoded JSON value.  Objects are association lists in insertion order,
mirroring Python 3.7+ `dict` insertion-order semantics relied on by the
client's `.pop`/`.values()` usage. -/
inductive Json where
  | null : Json
  | bool : Bool → Json
  | num : Int → Json
  | str : String → Json
  | arr : List Json → Json
  | obj : List (String × Json) → Json

/-- A Python exception surfaced by the client: `LegiScanError` (carrying the
exception argument, which the code sometimes builds from a JSON field),
`ValueError`, `KeyError`, or `TypeError`. -/
inductive PyError where
  | legiScanError : Json → PyError
  | valueError : String → PyError
  | keyError : String → PyError
  | typeError : PyError

/-- Lookup of the first entry with the given key in an object's entry list
(`KeyError` when absent). -/
def lookupEntry (k : String) : List (String × Json) → Except PyError Json
  | [] => .error (.keyError k)
  | (k', v) :: rest => if k' = k then .ok v else lookupEntry k rest

/-- Python `d[k]` on a JSON object: the value at the first matching key, a `KeyError`
if absent or if `d` is not an object. -/
def jsonGet (d : Json) (k : String) : Except PyError Json :=
  match d with
  | .obj l => lookupEntry k l
  | _ => .error (.keyError k)

/-- Removal of the first entry with the given key from an object's entry
list, returning its value and the remaining entries in order. -/
def popEntry (k : String) :
    List (String × Json) → Except PyError (Json × List (String × Json))
  | [] => .error (.keyError k)
  | (k', v) :: rest =>
    if k' = k then .ok (v, rest)
    else do
      let (w, rest') ← popEntry k rest
      .ok (w, (k', v) :: rest')

/-- Python `d.pop(k)` on a JSON object: the value at the first matching key together
with the object with that entry removed (remaining insertion order kept);
a `KeyError` if absent. -/
def jsonPop (d : Json) (k : String) : Except PyError (Json × Json) :=
  match d with
  | .obj l => do
    let (w, l') ← popEntry k l
    .ok (w, .obj l')
  | _ => .error (.keyError k)

/-- Python `d.values()` on a JSON object, in insertion order. -/
def jsonValues : Json → List Json
  | .obj l => l.map Prod.snd
  | _ => []

/-- Iterating a JSON value as a Python list (`[x for x in v]`): succeeds only
on arrays. -/
def asList : Json → Except PyError (List Json)
  | .arr l => .ok l
  | _ => .error .typeError

/-- Python `==` between a decoded JSON value and a string literal: true
exactly when the value is that string (comparison with a non-string value
is `False`, not an error). -/
def jsonEqStr (v : Json) (s : String) : Bool :=
  match v with
  | .str s' => s' = s
  | _ => false

/-! ## URL encoding (`urllib.parse.urlencode` / `quote_plus`) -/

/-- The UTF-8 byte sequence of a character. -/
def utf8Bytes (c : Char) : List Nat :=
  let n := c.toNat
  if n < 0x80 then [n]
  else if n < 0x800 then
    [0xC0 ||| (n >>> 6), 0x80 ||| (n &&& 0x3F)]
  else if n < 0x10000 then
    [0xE0 ||| (n >>> 12), 0x80 ||| ((n >>> 6) &&& 0x3F), 0x80 ||| (n &&& 0x3F)]
  else
    [0xF0 ||| (n >>> 18), 0x80 ||| ((n >>> 12) &&& 0x3F),
     0x80 ||| ((n >>> 6) &&& 0x3F), 0x80 ||| (n &&& 0x3F)]

/-- Bytes `quote_plus` leaves unescaped: ASCII letters, digits, `_`, `.`,
`-`, `~`. -/
def isSafeByte (b : Nat) : Bool :=
  (0x41 ≤ b && b ≤ 0x5A) || (0x61 ≤ b && b ≤ 0x7A) || (0x30 ≤ b && b ≤ 0x39)
    || b = 0x5F || b = 0x2E || b = 0x2D || b = 0x7E

/-- An uppercase hexadecimal digit. -/
def hexDigit (n : Nat) : Char :=
  if n < 10 then Char.ofNat (0x30 + n) else Char.ofNat (0x41 + (n - 10))

/-- Encoding of a single byte under `quote_plus`: space becomes `+`, safe bytes stand for
themselves, everything else is percent-encoded. -/
def encodeByte (b : Nat) : String :=
  if b = 0x20 then "+"
  else if isSafeByte b then String.singleton (Char.ofNat b)
  else "%" ++ String.singleton (hexDigit (b / 16)) ++ String.singleton (hexDigit (b % 16))

/-- Model of `urllib.parse.quote_plus`: percent-encode the UTF-8 bytes of a string,
with space mapped to `+`. -/
def quote_plus (s : String) : String :=
  String.join ((s.data.flatMap utf8Bytes).map encodeByte)

/-- Model of `urllib.parse.urlencode` on a parameter mapping (insertion order):
`k1=v1&k2=v2&...` with keys and `str()`-rendered values quoted. -/
def urlencode (params : List (String × PyVal)) : String :=
  String.intercalate "&" (params.map fun kv => quote_plus kv.1 ++ "=" ++ quote_plus kv.2.pyStr)

/-! ## The client (`class LegiScan`) -/

/-- The `params` argument of `LegiScan._url`: a string (passed through),
a parameter mapping (urlencoded), or `None` (empty query string). -/
inductive ParamsArg where
  | pstr : String → ParamsArg
  | pdict : List (String × PyVal) → ParamsArg
  | pnone : ParamsArg

/-- One HTTP GET response as seen by `LegiScan._get`: the `requests` success
flag (`req.ok`), the status code, and the decoded JSON body. -/
structure HttpResponse where
  ok : Bool
  status_code : Int
  content : Json

/-- The query-string preprocessing of `LegiScan._url`: a parameter mapping
is urlencoded, a string passes through, `None` becomes the empty query. -/
def ParamsArg.render : ParamsArg → String
  | .pstr s => s
  | .pdict d => urlencode d
  | .pnone => ""

namespace LegiScan

/-- Model of `LegiScan.__init__`: take the key from the `apikey` argument
when given, otherwise from the `LEGISCAN_API_KEY` environment variable
(a `KeyError` when absent), and strip surrounding whitespace.  The result
is the stored `self.key`. -/
def init (apikey : Option String) (environ : List (String × String)) :
    Except PyError String :=
  match apikey with
  | some k => .ok k.trim
  | none =>
    match environ.lookup "LEGISCAN_API_KEY" with
    | some v => .ok v.trim
    | none => .error (.keyError "LEGISCAN_API_KEY")

/-- Model of `LegiScan._url`: render the parameters and interpolate into
the template `BASE_URL` (key, operation, query string). -/
def url (key operation : String) (params : ParamsArg) : String :=
  "https://api.legiscan.com/?key=" ++ key ++ "&op=" ++ operation ++ "&" ++ params.render

/-- Model of `LegiScan._get`: raise a `LegiScanError` whose message is
built from the status code and the request URL when the transport reports
failure; otherwise decode the body, raise `LegiScanError` carrying
`data['alert']['message']` when `data['status'] == 'ERROR'`, and return the
payload otherwise. -/
def get (u : String) (req : HttpResponse) : Except PyError Json := do
  if req.ok = false then
    Except.error (.legiScanError (.str
      ("Request returned " ++ toString req.status_code ++ ": " ++ u)))
  else
    let data := req.content
    let st ← jsonGet data "status"
    if jsonEqStr st "ERROR" then
      let alert ← jsonGet data "alert"
      let msg ← jsonGet alert "message"
      Except.error (.legiScanError msg)
    else
      return data

/-! ### Operations

Each operation is split into the URL-construction part (validation plus
`_url`, exactly the `if`/`elif`/`else` chain of the source) and the full
method, which feeds the constructed URL to the transport and unwraps the
response.  `None` defaults are `PyVal.none`. -/

/-- Argument validation and URL construction of `LegiScan.get_master_list`:
`state` wins when given, else `session_id`, else `ValueError`. -/
def get_master_list_url (key : String) (state session_id : PyVal) :
    Except PyError String :=
  if state ≠ PyVal.none then
    .ok (url key "getMasterList" (.pdict [("state", state)]))
  else if session_id ≠ PyVal.none then
    .ok (url key "getMasterList" (.pdict [("id", session_id)]))
  else
    .error (.valueError "Must specify session identifier or state.")

/-- Model of `LegiScan.get_master_list`: fetch, pop the `session` entry out of
`data['masterlist']`, and return `{'session': ..., 'bills': [...]}` with the
remaining values in order. -/
def get_master_list (key : String) (state session_id : PyVal)
    (http : String → HttpResponse) : Except PyError Json := do
  let u ← get_master_list_url key state session_id
  let data ← get u (http u)
  let ml ← jsonGet data "masterlist"
  let (session, rest) ← jsonPop ml "session"
  return Json.obj [("session", session), ("bills", Json.arr (jsonValues rest))]

/-- Argument validation and URL construction of
`LegiScan.get_master_list_raw`. -/
def get_master_list_raw_url (key : String) (state session_id : PyVal) :
    Except PyError String :=
  if state ≠ PyVal.none then
    .ok (url key "getMasterListRaw" (.pdict [("state", state)]))
  else if session_id ≠ PyVal.none then
    .ok (url key "getMasterListRaw" (.pdict [("id", session_id)]))
  else
    .error (.valueError "Must specify session identifier or state.")

/-- Model of `LegiScan.get_master_list_raw`: identical unwrapping to
`get_master_list`, against the `getMasterListRaw` operation. -/
def get_master_list_raw (key : String) (state session_id : PyVal)
    (http : String → HttpResponse) : Except PyError Json := do
  let u ← get_master_list_raw_url key state session_id
  let data ← get u (http u)
  let ml ← jsonGet data "masterlist"
  let (session, rest) ← jsonPop ml "session"
  return Json.obj [("session", session), ("bills", Json.arr (jsonValues rest))]

/-- Argument validation and URL construction of `LegiScan.search`:
`bill_number` wins when given, else `query` (with `year`, default `2`, and
`page`, default `None`), else `ValueError`. -/
def search_url (key : String) (state bill_number query year page : PyVal) :
    Except PyError String :=
  if bill_number ≠ PyVal.none then
    .ok (url key "search" (.pdict [("state", state), ("bill", bill_number)]))
  else if query ≠ PyVal.none then
    .ok (url key "search"
      (.pdict [("state", state), ("query", query), ("year", year), ("page", page)]))
  else
    .error (.valueError "Must specify bill_number or query.")

/-- Model of `LegiScan.search`: fetch, take `data['searchresult']`, pop its
`summary`, and return `{'summary': ..., 'results': [...]}` where the list is
`[r for r in data['results']]`. -/
def search (key : String) (state bill_number query year page : PyVal)
    (http : String → HttpResponse) : Except PyError Json := do
  let u ← search_url key state bill_number query year page
  let data0 ← get u (http u)
  let data ← jsonGet data0 "searchresult"
  let (summary, rest) ← jsonPop data "summary"
  let resultsJ ← jsonGet rest "results"
  let results ← asList resultsJ
  return Json.obj [("summary", summary), ("results", Json.arr results)]

/-- The relevance validation of `LegiScan.search_raw`:
`not isinstance(relevance, int) or relevance > 100 or relevance < 0`
raises `ValueError` — note a non-integer (including the default `None`)
always fails this check. -/
def relevance_check (relevance : PyVal) : Except PyError Unit :=
  match relevance with
  | PyVal.int r =>
    if r > 100 ∨ r < 0 then
      .error (.valueError "Must specify valid value for relevance (integer 0-100).")
    else
      .ok ()
  | _ => .error (.valueError "Must specify valid value for relevance (integer 0-100).")

/-- Python `r['relevance'] >= relevance`: an integer comparison when both
sides are integers, a `TypeError` otherwise. -/
def pyGe (v : Json) (relevance : PyVal) : Except PyError Bool :=
  match v, relevance with
  | Json.num n, PyVal.int m => .ok (decide (n ≥ m))
  | _, _ => .error .typeError

/-- The comprehension `[r for r in data['results'] if r['relevance'] >= relevance]`. -/
def filterRelevance (relevance : PyVal) : List Json → Except PyError (List Json)
  | [] => .ok []
  | r :: rs => do
    let v ← jsonGet r "relevance"
    let b ← pyGe v relevance
    let rest ← filterRelevance relevance rs
    if b then .ok (r :: rest) else .ok rest

/-- Model of `LegiScan.search_raw`: require `query`, validate `relevance`, fetch
`searchRaw`, pop `summary` out of `data['searchresult']`, and return the
results filtered by relevance when `relevance is not None` (all of them
otherwise — a branch the validation makes unreachable). -/
def search_raw (key : String) (state query year page relevance : PyVal)
    (http : String → HttpResponse) : Except PyError Json := do
  let params ←
    if query ≠ PyVal.none then
      pure [("state", state), ("query", query), ("year", year), ("page", page)]
    else
      Except.error (PyError.valueError "Must specify query parameters for bill search.")
  let _ ← relevance_check relevance
  let u := url key "searchRaw" (.pdict params)
  let data0 ← get u (http u)
  let data ← jsonGet data0 "searchresult"
  let (summary, rest) ← jsonPop data "summary"
  let resultsJ ← jsonGet rest "results"
  let results ← asList resultsJ
  if relevance ≠ PyVal.none then
    let filtered ← filterRelevance relevance results
    return Json.obj [("summary", summary), ("results", Json.arr filtered)]
  else
    return Json.obj [("summary", summary), ("results", Json.arr results)]

/-- URL construction of `LegiScan.get_dataset_list`: no validation, the
parameter mapping is always `{'state': state, 'year': year}` whatever the
arguments (including `None`). -/
def get_dataset_list_url (key : String) (state year : PyVal) : String :=
  url key "getDatasetList" (.pdict [("state", state), ("year", year)])

/-- Model of `LegiScan.get_dataset_list`: fetch and unwrap `data['datasetlist']`. -/
def get_dataset_list (key : String) (state year : PyVal)
    (http : String → HttpResponse) : Except PyError Json := do
  let data ← get (get_dataset_list_url key state year)
    (http (get_dataset_list_url key state year))
  jsonGet data "datasetlist"

/-! ## Helper definitions and lemmas for the verification -/

/-- Sequencing an `Except` success value. -/
@[simp] theorem bind_ok {α β : Type} (a : α) (f : α → Except PyError β) :
    (Except.ok a : Except PyError α) >>= f = f a := rfl

/-- Does a result record carry an integer `relevance` field? -/
def hasIntRelevance (r : Json) : Bool :=
  match jsonGet r "relevance" with
  | .ok (.num _) => true
  | _ => false

/-- The Boolean predicate of the relevance comprehension: the record's
`relevance` field is an integer at least `T`. -/
def relevanceAtLeast (T : Int) (r : Json) : Bool :=
  match jsonGet r "relevance" with
  | .ok (.num n) => T ≤ n
  | _ => false

/-- An integer relevance threshold within 0–100 passes the validation of
`search_raw`. -/
theorem relevance_check_ok (T : Int) (h0 : 0 ≤ T) (h100 : T ≤ 100) :
    relevance_check (PyVal.int T) = .ok () := by
  have h : relevance_check (PyVal.int T)
      = if T > 100 ∨ T < 0 then
          Except.error (PyError.valueError
            "Must specify valid value for relevance (integer 0-100).")
        else Except.ok () := rfl
  rw [h, if_neg]
  omega

/-- On a list of records that all carry an integer `relevance` field, the
relevance comprehension succeeds and equals a `List.filter`. -/
theorem filterRelevance_eq_filter (T : Int) (rs : List Json)
    (h : rs.all hasIntRelevance = true) :
    filterRelevance (PyVal.int T) rs = .ok (rs.filter (relevanceAtLeast T)) := by
  induction rs with
  | nil => rfl
  | cons r rs ih =>
    simp only [List.all_cons, Bool.and_eq_true] at h
    obtain ⟨hr, hrs⟩ := h
    rcases hv : jsonGet r "relevance" with e | v
    · simp [hasIntRelevance, hv] at hr
    · cases v with
      | num n =>
        simp only [filterRelevance, hv, bind_ok, pyGe, ih hrs, List.filter_cons]
        by_cases hT : T ≤ n <;> simp [hT, relevanceAtLeast, hv]
      | null => simp [hasIntRelevance, hv] at hr
      | bool b => simp [hasIntRelevance, hv] at hr
      | str s => simp [hasIntRelevance, hv] at hr
      | arr l => simp [hasIntRelevance, hv] at hr
      | obj l => simp [hasIntRelevance, hv] at hr

/-! ## Claim theorems -/

/-- C1: the claim says `search_raw` with `relevance=None` (the default) does
not raise and returns all results unfiltered.  The code's validation
`not isinstance(relevance, int) or ...` rejects `None`, so the call below —
the documented "leave it blank" usage, with a valid query — raises
`ValueError` whatever the transport would answer, before any request is
made.  This contradicts the method's own docstring and makes its
`relevance is not None` branch unreachable. -/
theorem search_raw_rejects_default_relevance :
    ∀ http : String → HttpResponse,
      search_raw "APIKEY" (PyVal.str "CA") (PyVal.str "water")
        (PyVal.int 2) PyVal.none PyVal.none http
      = .error (.valueError "Must specify valid value for relevance (integer 0-100).") :=
  fun _ => rfl

/-- C3: a master-list response `{"masterlist": {"session": S, k1: b1, ...}}`
is unwrapped by `get_master_list` and `get_master_list_raw` into
`{"session": S, "bills": [b1, b2, ...]}`, with the bills in the insertion
order of the remaining entries of the source mapping. -/
theorem master_list_unwrapping (key st : String) (S : Json)
    (kbs : List (String × Json)) :
    get_master_list key (PyVal.str st) PyVal.none
      (fun _ => ⟨true, 200, Json.obj [("status", Json.str "OK"),
        ("masterlist", Json.obj (("session", S) :: kbs))]⟩)
      = .ok (Json.obj [("session", S), ("bills", Json.arr (kbs.map Prod.snd))])
    ∧ get_master_list_raw key (PyVal.str st) PyVal.none
      (fun _ => ⟨true, 200, Json.obj [("status", Json.str "OK"),
        ("masterlist", Json.obj (("session", S) :: kbs))]⟩)
      = .ok (Json.obj [("session", S), ("bills", Json.arr (kbs.map Prod.snd))]) :=
  ⟨rfl, rfl⟩

/-- C6: on a search response whose `searchresult` mapping holds a `summary`
entry together with the item records (under `results`), `search` removes
`summary` from the mapping and returns it separately, with the item records
as the list under the output's `results` key — in both the bill-number and
the query call forms. -/
theorem search_summary_separation (key st bn q : String) (S : Json)
    (rs : List Json) :
    search key (PyVal.str st) (PyVal.str bn) PyVal.none (PyVal.int 2) PyVal.none
      (fun _ => ⟨true, 200, Json.obj [("status", Json.str "OK"),
        ("searchresult", Json.obj [("summary", S), ("results", Json.arr rs)])]⟩)
      = .ok (Json.obj [("summary", S), ("results", Json.arr rs)])
    ∧ search key (PyVal.str st) PyVal.none (PyVal.str q) (PyVal.int 2) PyVal.none
      (fun _ => ⟨true, 200, Json.obj [("status", Json.str "OK"),
        ("searchresult", Json.obj [("summary", S), ("results", Json.arr rs)])]⟩)
      = .ok (Json.obj [("summary", S), ("results", Json.arr rs)]) :=
  ⟨rfl, rfl⟩

/-- C7: URL construction is a pure function of the API key, the operation
name and the parameters — two calls on identical inputs yield the identical
URL string, and no other state influences the result (in the source, the
only instance state `_url` reads is `self.key`, which is the `key`
argument here). -/
theorem url_construction_deterministic (k₁ k₂ op₁ op₂ : String)
    (p₁ p₂ : ParamsArg) (hk : k₁ = k₂) (hop : op₁ = op₂) (hp : p₁ = p₂) :
    url k₁ op₁ p₁ = url k₂ op₂ p₂ := by
  subst hk
  subst hop
  subst hp
  rfl

/-- Witness for C7 at concrete inputs. -/
theorem url_construction_deterministic_witness :
    url "K" "getBill" (.pdict [("id", .int 7)])
      = url "K" "getBill" (.pdict [("id", .int 7)]) :=
  url_construction_deterministic "K" "K" "getBill" "getBill"
    (.pdict [("id", .int 7)]) (.pdict [("id", .int 7)]) rfl rfl rfl

/-- C9: `get_dataset_list` always sends both the `state` and the `year`
parameter: the query string is `state=...&year=...` for every argument
pair, and an omitted (`None`) argument is not dropped but rendered as the
literal text `None`. -/
theorem dataset_list_params_never_dropped (key : String) (s y : PyVal) :
    get_dataset_list_url key s y
      = "https://api.legiscan.com/?key=" ++ key ++ "&op=" ++ "getDatasetList"
          ++ "&" ++ ("state=" ++ quote_plus s.pyStr ++ "&" ++ ("year=" ++ quote_plus y.pyStr))
    ∧ get_dataset_list_url key PyVal.none y
      = "https://api.legiscan.com/?key=" ++ key ++ "&op=" ++ "getDatasetList"
          ++ "&" ++ ("state=None&" ++ ("year=" ++ quote_plus y.pyStr))
    ∧ get_dataset_list_url key s PyVal.none
      = "https://api.legiscan.com/?key=" ++ key ++ "&op=" ++ "getDatasetList"
          ++ "&" ++ ("state=" ++ quote_plus s.pyStr ++ "&" ++ "year=None")
    ∧ get_dataset_list_url key PyVal.none PyVal.none
      = "https://api.legiscan.com/?key=" ++ key ++ "&op=" ++ "getDatasetList"
          ++ "&" ++ "state=None&year=None" :=
  ⟨rfl, rfl, rfl, rfl⟩

/-- Sequencing a pure value in `Except`. -/
@[simp] theorem pure_eq_ok {α : Type} (a : α) :
    (pure a : Except PyError α) = Except.ok a := rfl

/-- C2: for the operations with mutually-exclusive identifier choices
(`get_master_list` and `get_master_list_raw` with `state` vs `session_id`,
`search` with `bill_number` vs `query`), a call with neither identifier is
a `ValueError` whatever the transport would answer (no request is
consulted), and a call with exactly one of the two builds a URL whose query
string carries exactly that identifier's parameter and not the other's
(the equalities below exhibit the full query string). -/
theorem exclusive_identifier_validation (key : String)
    (http : String → HttpResponse) (v st y p : PyVal) (hv : v ≠ PyVal.none) :
    get_master_list key PyVal.none PyVal.none http
      = .error (.valueError "Must specify session identifier or state.")
    ∧ get_master_list_raw key PyVal.none PyVal.none http
      = .error (.valueError "Must specify session identifier or state.")
    ∧ search key st PyVal.none PyVal.none y p http
      = .error (.valueError "Must specify bill_number or query.")
    ∧ get_master_list_url key v PyVal.none
      = .ok ("https://api.legiscan.com/?key=" ++ key ++ "&op=" ++ "getMasterList"
          ++ "&" ++ ("state=" ++ quote_plus v.pyStr))
    ∧ get_master_list_url key PyVal.none v
      = .ok ("https://api.legiscan.com/?key=" ++ key ++ "&op=" ++ "getMasterList"
          ++ "&" ++ ("id=" ++ quote_plus v.pyStr))
    ∧ get_master_list_raw_url key v PyVal.none
      = .ok ("https://api.legiscan.com/?key=" ++ key ++ "&op=" ++ "getMasterListRaw"
          ++ "&" ++ ("state=" ++ quote_plus v.pyStr))
    ∧ get_master_list_raw_url key PyVal.none v
      = .ok ("https://api.legiscan.com/?key=" ++ key ++ "&op=" ++ "getMasterListRaw"
          ++ "&" ++ ("id=" ++ quote_plus v.pyStr))
    ∧ search_url key st v PyVal.none y p
      = .ok ("https://api.legiscan.com/?key=" ++ key ++ "&op=" ++ "search"
          ++ "&" ++ ("state=" ++ quote_plus st.pyStr ++ "&"
              ++ ("bill=" ++ quote_plus v.pyStr)))
    ∧ search_url key st PyVal.none v y p
      = .ok ("https://api.legiscan.com/?key=" ++ key ++ "&op=" ++ "search"
          ++ "&" ++ ("state=" ++ quote_plus st.pyStr ++ "&"
              ++ ("query=" ++ quote_plus v.pyStr) ++ "&"
              ++ ("year=" ++ quote_plus y.pyStr) ++ "&"
              ++ ("page=" ++ quote_plus p.pyStr))) := by
  refine ⟨rfl, rfl, rfl, ?_, ?_, ?_, ?_, ?_, ?_⟩ <;>
    cases v with
    | none => exact absurd rfl hv
    | str s => rfl
    | int n => rfl

/-- Witness for C2: the missing-identifier error and a one-identifier URL
at concrete inputs. -/
theorem exclusive_identifier_validation_witness :
    get_master_list "K" PyVal.none PyVal.none (fun _ => ⟨true, 200, Json.null⟩)
      = .error (.valueError "Must specify session identifier or state.")
    ∧ get_master_list_url "K" (PyVal.str "IL") PyVal.none
      = .ok "https://api.legiscan.com/?key=K&op=getMasterList&state=IL" := by
  have h := exclusive_identifier_validation "K" (fun _ => ⟨true, 200, Json.null⟩)
    (PyVal.str "IL") (PyVal.str "CA") (PyVal.int 2) PyVal.none (by decide)
  exact ⟨h.1, h.2.2.2.1⟩

/-- C4 counterexample: the claim says the raised `LegiScanError` always
carries the server-supplied message.  On a transport failure the message is
built from the status code and the URL; the server body's
`alert.message` (present below) is not what the error carries. -/
theorem get_transport_message_not_server_message :
    get "https://example/u"
      ⟨false, 500, Json.obj [("status", Json.str "ERROR"),
        ("alert", Json.obj [("message", Json.str "Server-side explanation")])]⟩
      = .error (.legiScanError (.str "Request returned 500: https://example/u"))
    ∧ jsonEqStr (Json.str "Request returned 500: https://example/u")
        "Server-side explanation" = false :=
  ⟨rfl, rfl⟩

/-- C4 amended: `_get` raises `LegiScanError` exactly on transport failure
or an `ERROR` payload status; in the `ERROR`-status case it carries the
server-supplied `alert.message`, while in the transport-failure case it
carries the HTTP status code and the request URL instead; otherwise the
parsed payload is returned. -/
theorem get_error_characterization (u : String) (resp : HttpResponse) :
    (resp.ok = false →
      get u resp = .error (.legiScanError (.str
        ("Request returned " ++ toString resp.status_code ++ ": " ++ u))))
    ∧ (∀ A m : Json, resp.ok = true →
        jsonGet resp.content "status" = .ok (Json.str "ERROR") →
        jsonGet resp.content "alert" = .ok A →
        jsonGet A "message" = .ok m →
        get u resp = .error (.legiScanError m))
    ∧ (∀ s : Json, resp.ok = true →
        jsonGet resp.content "status" = .ok s →
        jsonEqStr s "ERROR" = false →
        get u resp = .ok resp.content) := by
  refine ⟨fun h => ?_, fun A m hok hst hal hm => ?_, fun s hok hst hne => ?_⟩
  · simp [get, h]
  · simp [get, hok, hst, hal, hm, jsonEqStr]
  · simp [get, hok, hst, hne]

/-- Witness for C4: the three cases of `_get` at concrete responses. -/
theorem get_error_characterization_witness :
    get "https://u" ⟨false, 404, Json.null⟩
      = .error (.legiScanError (.str "Request returned 404: https://u"))
    ∧ get "https://u" ⟨true, 200, Json.obj [("status", Json.str "ERROR"),
        ("alert", Json.obj [("message", Json.str "bad key")])]⟩
      = .error (.legiScanError (.str "bad key"))
    ∧ get "https://u" ⟨true, 200, Json.obj [("status", Json.str "OK")]⟩
      = .ok (Json.obj [("status", Json.str "OK")]) :=
  ⟨(get_error_characterization "https://u" ⟨false, 404, Json.null⟩).1 rfl,
   (get_error_characterization "https://u" ⟨true, 200,
      Json.obj [("status", Json.str "ERROR"),
        ("alert", Json.obj [("message", Json.str "bad key")])]⟩).2.1
     (Json.obj [("message", Json.str "bad key")]) (Json.str "bad key")
     rfl rfl rfl rfl,
   (get_error_characterization "https://u" ⟨true, 200,
      Json.obj [("status", Json.str "OK")]⟩).2.2 (Json.str "OK") rfl rfl rfl⟩

/-- C5: for a raw search with an in-range integer threshold `T` over
results that all carry an integer `relevance` field, `search_raw` returns
exactly the input results whose relevance is at least `T`, in the original
order (a `List.filter` of the input list). -/
theorem search_raw_relevance_filtering (key : String) (st q y p : PyVal)
    (S : Json) (rs : List Json) (T : Int) (hq : q ≠ PyVal.none)
    (h0 : 0 ≤ T) (h100 : T ≤ 100) (hrs : rs.all hasIntRelevance = true) :
    search_raw key st q y p (PyVal.int T)
      (fun _ => ⟨true, 200, Json.obj [("status", Json.str "OK"),
        ("searchresult", Json.obj [("summary", S), ("results", Json.arr rs)])]⟩)
    = .ok (Json.obj [("summary", S),
        ("results", Json.arr (rs.filter (relevanceAtLeast T)))]) := by
  have hrc := relevance_check_ok T h0 h100
  have hfl := filterRelevance_eq_filter T rs hrs
  cases q with
  | none => exact absurd rfl hq
  | str s =>
    simp only [search_raw, hrc, bind_ok]
    show (fun a => Json.obj [("summary", S), ("results", Json.arr a)])
        <$> filterRelevance (PyVal.int T) rs
      = .ok (Json.obj [("summary", S),
          ("results", Json.arr (rs.filter (relevanceAtLeast T)))])
    rw [hfl]
    rfl
  | int n =>
    simp only [search_raw, hrc, bind_ok]
    show (fun a => Json.obj [("summary", S), ("results", Json.arr a)])
        <$> filterRelevance (PyVal.int T) rs
      = .ok (Json.obj [("summary", S),
          ("results", Json.arr (rs.filter (relevanceAtLeast T)))])
    rw [hfl]
    rfl

/-- Witness for C5: threshold 50 keeps the relevance-80 result and drops
the relevance-30 one. -/
theorem search_raw_relevance_filtering_witness :
    search_raw "K" (PyVal.str "IL") (PyVal.str "tax") (PyVal.int 2) PyVal.none
      (PyVal.int 50)
      (fun _ => ⟨true, 200, Json.obj [("status", Json.str "OK"),
        ("searchresult", Json.obj [("summary", Json.str "sum"),
          ("results", Json.arr [Json.obj [("relevance", Json.num 80)],
            Json.obj [("relevance", Json.num 30)]])])]⟩)
    = .ok (Json.obj [("summary", Json.str "sum"),
        ("results", Json.arr [Json.obj [("relevance", Json.num 80)]])]) :=
  search_raw_relevance_filtering "K" (PyVal.str "IL") (PyVal.str "tax")
    (PyVal.int 2) PyVal.none (Json.str "sum")
    [Json.obj [("relevance", Json.num 80)], Json.obj [("relevance", Json.num 30)]]
    50 (by decide) (by decide) (by decide) rfl

/-- C8: the constructor takes the key from the `apikey` argument when
provided (stripped), otherwise from the `LEGISCAN_API_KEY` environment
variable; with neither available it raises (the `KeyError` of the
environment lookup) and no client key is produced. -/
theorem init_key_source (k v : String) (environ : List (String × String)) :
    init (some k) environ = .ok k.trim
    ∧ (environ.lookup "LEGISCAN_API_KEY" = some v →
        init none environ = .ok v.trim)
    ∧ (environ.lookup "LEGISCAN_API_KEY" = none →
        init none environ = .error (.keyError "LEGISCAN_API_KEY")) := by
  refine ⟨rfl, fun hv => ?_, fun hn => ?_⟩
  · simp [init, hv]
  · simp [init, hn]

/-- Witness for C8: the three credential sources at concrete inputs. -/
theorem init_key_source_witness :
    init (some " KEY ") [] = .ok " KEY ".trim
    ∧ init none [("LEGISCAN_API_KEY", "ENVKEY")] = .ok "ENVKEY".trim
    ∧ init none [] = .error (.keyError "LEGISCAN_API_KEY") :=
  ⟨(init_key_source " KEY " "x" []).1,
   (init_key_source "k" "ENVKEY" [("LEGISCAN_API_KEY", "ENVKEY")]).2.1 rfl,
   (init_key_source "k" "x" []).2.2 rfl⟩

/-- C10: on a transport failure the `LegiScanError` message is exactly
`Request returned {code}: {url}` — it contains the full request URL (and,
for a URL built by `_url`, the API key embedded in it as plain text), and
it is independent of the response body, so the server-supplied message in
the body is not part of it. -/
theorem transport_error_message_contents (u : String) (resp : HttpResponse)
    (h : resp.ok = false) :
    get u resp = .error (.legiScanError (.str
      ("Request returned " ++ toString resp.status_code ++ ": " ++ u)))
    ∧ (∃ pre post : String,
        "Request returned " ++ toString resp.status_code ++ ": " ++ u
          = pre ++ u ++ post)
    ∧ (∀ (key op : String) (params : ParamsArg), ∃ pre post : String,
        "Request returned " ++ toString resp.status_code ++ ": " ++ url key op params
          = pre ++ key ++ post)
    ∧ (∀ resp₂ : HttpResponse, resp₂.ok = false →
        resp₂.status_code = resp.status_code → get u resp₂ = get u resp) := by
  refine ⟨by simp [get, h],
    ⟨"Request returned " ++ toString resp.status_code ++ ": ", "", by simp⟩,
    fun key op params =>
      ⟨"Request returned " ++ toString resp.status_code ++ ": "
          ++ "https://api.legiscan.com/?key=",
       "&op=" ++ op ++ "&" ++ params.render,
       by
        simp [url, String.append_assoc]
        rw [← String.append_assoc ": " "https://api.legiscan.com/?key="]
        rfl⟩,
    fun resp₂ h₂ hc => by simp [get, h, h₂, hc]⟩

/-- Witness for C10: the transport-failure message at a concrete
response. -/
theorem transport_error_message_contents_witness :
    get "https://u" ⟨false, 403, Json.null⟩
      = .error (.legiScanError (.str "Request returned 403: https://u")) :=
  (transport_error_message_contents "https://u" ⟨false, 403, Json.null⟩ rfl).1

end LegiScan

end Legipy
